import Mathlib

/-!
# Verification of the CRM notification subsystem

Shallow embedding of the lead-staleness / notification-generation logic of
the CRM repository, together with theorems settling the specification
claims about it.

Sources embedded:
- `supabase/functions/generate-admin-notifications/index.ts` (the "admin"
  HTTP function),
- `supabase/functions/auto-generate-notifications/index.ts` (the "auto"
  HTTP function),
- the `AdminNotifications` screen's `generateNotifications` (which
  duplicates the auto function's generation logic, with a delete-all step),
- the `MonitoringRoom` component (activity-status classifier and AFK
  notifications),
- the `SalesmanNotifications` component's `handleStatusUpdate`.

Timestamps are modelled as `Int` milliseconds since the epoch; the
source compares ISO-8601 timestamp strings of equal length, whose
lexicographic order agrees with the numeric order of the instants.
-/

namespace Crm

/-- Lead `status` values (LeadForm / SalesmanNotifications option lists). -/
inductive LeadStatus
  | prospect | qualified | proposal | negotiation | closedWon | closedLost
  deriving DecidableEq, Repr

/-- Lead `call_status` values (SalesmanNotifications option list). -/
inductive CallStatus
  | not_called | answered | no_response | voicemail | busy | wrong_number
  deriving DecidableEq, Repr

/-- A row of the `leads` table, restricted to the columns the
notification generators select. -/
structure Lead where
  id : String
  user_id : String
  name : String
  company : String
  status : LeadStatus
  call_status : CallStatus
  last_contact : Int
  created_at : Int
  deriving DecidableEq, Repr

/-- Milliseconds in a day: `24 * 60 * 60 * 1000` in the source. -/
def msPerDay : Int := 24 * 60 * 60 * 1000

/-- Milliseconds in an hour. -/
def msPerHour : Int := 60 * 60 * 1000

/-- Cutoff `new Date(now.getTime() - 4 * 24 * 60 * 60 * 1000)`. -/
def fourDaysAgo (now : Int) : Int := now - 4 * msPerDay

/-- Cutoff `new Date(now.getTime() - 14 * 24 * 60 * 60 * 1000)`. -/
def twoWeeksAgo (now : Int) : Int := now - 14 * msPerDay

/-- The overdue-leads query of both HTTP functions and the admin screen:
`eq('user_id', userId) ∧ lt('last_contact', fourDaysAgo) ∧
neq('status','closed-won') ∧ neq('status','closed-lost')`. -/
def overdueLeads (leads : List Lead) (userId : String) (now : Int) : List Lead :=
  leads.filter fun l =>
    l.user_id == userId && decide (l.last_contact < fourDaysAgo now) &&
      !(l.status == .closedWon) && !(l.status == .closedLost)

/-- The stale-leads query of both HTTP functions and the admin screen:
same as `overdueLeads` with the two-week cutoff. -/
def staleLeads (leads : List Lead) (userId : String) (now : Int) : List Lead :=
  leads.filter fun l =>
    l.user_id == userId && decide (l.last_contact < twoWeeksAgo now) &&
      !(l.status == .closedWon) && !(l.status == .closedLost)

/-- The uncalled-leads query of generate-admin-notifications:
`eq('user_id', userId) ∧ eq('call_status','not_called') ∧
lt('created_at', twoWeeksAgo)`.  Note: it has no status filter. -/
def uncalledLeads (leads : List Lead) (userId : String) (now : Int) : List Lead :=
  leads.filter fun l =>
    l.user_id == userId && l.call_status == .not_called &&
      decide (l.created_at < twoWeeksAgo now)

/-- Notification `priority` values. -/
inductive Priority
  | low | medium | high
  deriving DecidableEq, Repr

/-- A notification object as pushed onto the `notifications` array of a
generation pass, before the insert adds `is_read: false`. -/
structure Draft where
  ntype : String
  title : String
  message : String
  salesman_id : String
  salesman_email : String
  priority : Priority
  data_leads : List Lead
  deriving DecidableEq, Repr

/-- The overdue-leads notification of generate-admin-notifications
(lines 107-123): priority `>20 → high, >10 → medium, else low`,
payload carries `overdueLeads.slice(0, 10)`. -/
def mkOverdueNotifAdmin (uid email : String) (od : List Lead) : Draft :=
  let n := od.length
  { ntype := "stale_lead"
    title := "📈 " ++ toString n ++ " Overdue Leads (4+ Days) - " ++ email
    message := email ++ " has " ++ toString n ++
      " leads not contacted in 4+ days. Regular follow-up needed to keep leads warm."
    salesman_id := uid
    salesman_email := email
    priority := if n > 20 then .high else if n > 10 then .medium else .low
    data_leads := od.take 10 }

/-- The stale-leads notification of generate-admin-notifications
(lines 126-141): priority always `high`. -/
def mkStaleNotifAdmin (uid email : String) (st : List Lead) : Draft :=
  let n := st.length
  { ntype := "stale_lead"
    title := "🚨 CRITICAL: " ++ toString n ++ " Stale Leads (2+ Weeks) - " ++ email
    message := email ++ " has " ++ toString n ++
      " leads not contacted in 2+ weeks. URGENT: These leads are at high risk of being lost!"
    salesman_id := uid
    salesman_email := email
    priority := .high
    data_leads := st.take 10 }

/-- The uncalled-leads notification of generate-admin-notifications
(lines 144-159): priority `>5 → high, >2 → medium, else low`. -/
def mkUncalledNotifAdmin (uid email : String) (uc : List Lead) : Draft :=
  let n := uc.length
  { ntype := "no_calls"
    title := "📞 " ++ toString n ++ " Uncalled Leads - " ++ email
    message := email ++ " has " ++ toString n ++
      " leads that have never been called (2+ weeks old). Initial contact is critical."
    salesman_id := uid
    salesman_email := email
    priority := if n > 5 then .high else if n > 2 then .medium else .low
    data_leads := uc.take 10 }

/-- The overdue-leads notification of auto-generate-notifications
(lines 78-88) and of the AdminNotifications screen: priority
`>10 → high, else medium`, payload carries `slice(0, 5)`. -/
def mkOverdueNotifAuto (uid email : String) (od : List Lead) : Draft :=
  let n := od.length
  { ntype := "stale_lead"
    title := toString n ++ " Overdue Leads - " ++ email
    message := email ++ " has " ++ toString n ++ " leads not contacted in 4+ days"
    salesman_id := uid
    salesman_email := email
    priority := if n > 10 then .high else .medium
    data_leads := od.take 5 }

/-- The stale-leads notification of auto-generate-notifications
(lines 90-100) and of the AdminNotifications screen: priority `high`. -/
def mkStaleNotifAuto (uid email : String) (st : List Lead) : Draft :=
  let n := st.length
  { ntype := "stale_lead"
    title := "🚨 CRITICAL: " ++ toString n ++ " Stale Leads - " ++ email
    message := email ++ " has " ++ toString n ++ " leads not contacted in 2+ weeks"
    salesman_id := uid
    salesman_email := email
    priority := .high
    data_leads := st.take 5 }

/-- Result of the four per-user queries a generation pass performs.  Each
fallible query is an `Except`; the `user_roles` lookup returns `none`
when the `.single()` call finds no row. -/
structure UserFetch where
  email : Option String
  overdue : Except String (List Lead)
  stale : Except String (List Lead)
  uncalled : Except String (List Lead)
  deriving Repr

/-- Fallback `userRole?.email || user-...@unknown.com`. -/
def fetchEmail (f : UserFetch) (uid : String) : String :=
  match f.email with
  | some e => e
  | none => "user-" ++ uid ++ "@unknown.com"

/-- Per-user body of the generate-admin-notifications loop (lines 49-163):
an error on any of the three lead queries hits a `continue`, so the user
contributes no notifications; otherwise one notification is pushed per
non-empty bucket, in the order overdue, stale, uncalled. -/
def processUserAdmin (f : UserFetch) (uid : String) : List Draft :=
  let email := fetchEmail f uid
  match f.overdue with
  | .error _ => []
  | .ok od =>
    match f.stale with
    | .error _ => []
    | .ok st =>
      match f.uncalled with
      | .error _ => []
      | .ok uc =>
        (if od.length > 0 then [mkOverdueNotifAdmin uid email od] else []) ++
        (if st.length > 0 then [mkStaleNotifAdmin uid email st] else []) ++
        (if uc.length > 0 then [mkUncalledNotifAdmin uid email uc] else [])

/-- Per-user body of the auto-generate-notifications loop (lines 48-105)
and of the AdminNotifications screen: the two queries ignore their error
slot (`const { data } = ...`), a failed query leaves its bucket with no
notification but the other bucket is still processed. -/
def processUserAuto (f : UserFetch) (uid : String) : List Draft :=
  let email := fetchEmail f uid
  (match f.overdue with
   | .error _ => []
   | .ok od => if od.length > 0 then [mkOverdueNotifAuto uid email od] else []) ++
  (match f.stale with
   | .error _ => []
   | .ok st => if st.length > 0 then [mkStaleNotifAuto uid email st] else [])

/-- Distinct user ids in first-occurrence order, as computed by
`[...new Set(userIds.map(l => l.user_id))]`. -/
def uniqueUserIds (leads : List Lead) : List String :=
  (leads.map (fun l => l.user_id)).foldl
    (fun acc u => if u ∈ acc then acc else acc ++ [u]) []

/-- The `user_roles` email lookup result for a user. -/
def emailFor (roles : List (String × String)) (uid : String) : Option String :=
  (roles.find? (fun r => r.1 == uid)).map (fun r => r.2)

/-- The per-user queries evaluated against in-memory tables, with every
query succeeding: the fetch oracle used when no database error occurs. -/
def honestFetch (leads : List Lead) (roles : List (String × String)) (now : Int)
    (uid : String) : UserFetch :=
  { email := emailFor roles uid
    overdue := .ok (overdueLeads leads uid now)
    stale := .ok (staleLeads leads uid now)
    uncalled := .ok (uncalledLeads leads uid now) }

/-- The full draft list of a generate-admin-notifications pass, given a
fetch oracle. -/
def generateAdminDrafts (fetch : String → UserFetch) (uids : List String) : List Draft :=
  (uids.map (fun u => processUserAdmin (fetch u) u)).flatten

/-- The full draft list of an auto-generate-notifications pass (also the
AdminNotifications screen's generation), given a fetch oracle. -/
def generateAutoDrafts (fetch : String → UserFetch) (uids : List String) : List Draft :=
  (uids.map (fun u => processUserAuto (fetch u) u)).flatten

/-- The JSON body of an HTTP function's response. -/
inductive ResponseBody
  | ok (notifications_created : Nat) (users_processed : Option Nat)
  | err (msg : String)
  deriving DecidableEq, Repr

/-- An HTTP function's response: status code and JSON body. -/
structure ServeResult where
  status : Nat
  body : ResponseBody
  deriving DecidableEq, Repr

/-- The generate-admin-notifications handler after the delete step
(whose error is only logged): the distinct-user-ids query result, a
per-user fetch oracle, and the bulk-insert outcome determine the
response.  A failing insert is thrown (lines 172-175), caught by the
outer handler and returned as a 500; the insert only runs when at least
one notification was drafted. -/
def serveAdmin (userIdsRes : Except String (List String))
    (fetch : String → UserFetch) (insertErr : Option String) : ServeResult :=
  match userIdsRes with
  | .error e => { status := 500, body := .err e }
  | .ok uids =>
    let notifs := generateAdminDrafts fetch uids
    if notifs.length > 0 then
      match insertErr with
      | some e => { status := 500, body := .err e }
      | none =>
        { status := 200, body := .ok notifs.length (some uids.length) }
    else { status := 200, body := .ok 0 (some uids.length) }

/-- The auto-generate-notifications handler: a failing insert is logged
(lines 113-117) but not thrown, so the handler still returns 200 with
`success: true`. -/
def serveAuto (userIdsRes : Except String (List String))
    (fetch : String → UserFetch) (insertErr : Option String) : ServeResult :=
  match userIdsRes with
  | .error _e => { status := 500, body := .err _e }
  | .ok uids =>
    let notifs := generateAutoDrafts fetch uids
    { status := 200, body := .ok notifs.length none }

/-- A stored row of the `admin_notifications` table: database id,
notification content, insertion time, read flag. -/
structure Row where
  id : String
  draft : Draft
  created_at : Int
  is_read : Bool
  deriving DecidableEq, Repr

/-- The bulk insert `insert(notifications.map(n => ({ ...n, is_read:
false })))`: new rows get database-assigned ids (supplied here as a
list), `created_at` now, and `is_read` false. -/
def insertRows (ids : List String) (drafts : List Draft) (now : Int) : List Row :=
  (ids.zip drafts).map fun p =>
    { id := p.1, draft := p.2, created_at := now, is_read := false }

/-- generate-admin-notifications' delete step (lines 23-26):
`delete().gte('created_at', now - 24h)` removes every row created in the
last 24 hours, keeping only strictly older rows. -/
def adminDeleteStep (store : List Row) (now : Int) : List Row :=
  store.filter fun r => decide (r.created_at < now - 24 * msPerHour)

/-- auto-generate-notifications' delete step (lines 39-43):
`delete().lt('created_at', now - 24h)` removes only rows older than 24
hours, keeping every recent row. -/
def autoDeleteStep (store : List Row) (now : Int) : List Row :=
  store.filter fun r => decide (now - 24 * msPerHour ≤ r.created_at)

/-- The sentinel id in the AdminNotifications screen's
`delete().neq('id', '00000000-0000-0000-0000-000000000000')`. -/
def dummyId : String := "00000000-0000-0000-0000-000000000000"

/-- The AdminNotifications screen's delete step: removes every row whose
id differs from the sentinel, i.e. keeps only a row carrying the
sentinel id itself. -/
def screenDeleteStep (store : List Row) : List Row :=
  store.filter fun r => r.id == dummyId

/-- A full generate-admin-notifications pass over the store: delete
step, then bulk insert of the freshly generated drafts. -/
def adminPass (leads : List Lead) (roles : List (String × String))
    (ids : List String) (now : Int) (store : List Row) : List Row :=
  adminDeleteStep store now ++
    insertRows ids
      (generateAdminDrafts (honestFetch leads roles now) (uniqueUserIds leads)) now

/-- A full auto-generate-notifications pass over the store. -/
def autoPass (leads : List Lead) (roles : List (String × String))
    (ids : List String) (now : Int) (store : List Row) : List Row :=
  autoDeleteStep store now ++
    insertRows ids
      (generateAutoDrafts (honestFetch leads roles now) (uniqueUserIds leads)) now

/-- A full AdminNotifications-screen regeneration pass over the store
(delete all, then insert; its generation duplicates the auto logic). -/
def screenPass (leads : List Lead) (roles : List (String × String))
    (ids : List String) (now : Int) (store : List Row) : List Row :=
  screenDeleteStep store ++
    insertRows ids
      (generateAutoDrafts (honestFetch leads roles now) (uniqueUserIds leads)) now

/-- The AdminNotifications screen's `markAsRead`: `update({ is_read:
true }).eq('id', notificationId)`. -/
def markAsRead (store : List Row) (nid : String) : List Row :=
  store.map fun r => if r.id == nid then { r with is_read := true } else r

/-- The AdminNotifications screen's `markAllAsRead`: `update({ is_read:
true }).eq('is_read', false)`. -/
def markAllAsRead (store : List Row) : List Row :=
  store.map fun r => if r.is_read == false then { r with is_read := true } else r

/-- Salesman activity statuses of the MonitoringRoom component. -/
inductive OnlineStatus
  | online | idle | afk | offline
  deriving DecidableEq, Repr

/-- Source constant `AFK_THRESHOLD = 10 * 60 * 1000` (MonitoringRoom). -/
def AFK_THRESHOLD : Int := 10 * 60 * 1000

/-- Source constant `IDLE_THRESHOLD = 30 * 60 * 1000` (MonitoringRoom). -/
def IDLE_THRESHOLD : Int := 30 * 60 * 1000

/-- The MonitoringRoom status ladder (part_000 lines 171-193): for a
logged-in salesman with a last activity, `<5min → online`,
`<10min → idle`, `<30min → afk`, otherwise `idle` ("Still logged in but
very inactive"); logged in with no activity → online; not logged in →
offline (the initial value, kept in both remaining branches). -/
def computeStatus (isOnline : Bool) (lastActivity : Option Int) (now : Int) :
    OnlineStatus :=
  match isOnline, lastActivity with
  | true, some t =>
    let timeDiff := now - t
    if timeDiff < 5 * 60 * 1000 then .online
    else if timeDiff < AFK_THRESHOLD then .idle
    else if timeDiff < IDLE_THRESHOLD then .afk
    else .idle
  | true, none => .online
  | false, _ => .offline

/-- A salesman entry of the MonitoringRoom list. -/
structure Salesman where
  user_id : String
  email : String
  last_activity : Option Int
  total_actions : Nat
  online_status : OnlineStatus
  deriving DecidableEq, Repr

/-- The AFK-alert notification built by `generateAFKNotifications`
(part_000 lines 224-236). -/
def mkAfkNotif (s : Salesman) : Draft :=
  let e := s.email
  { ntype := "inactive_salesman"
    title := "🚨 AFK Alert: " ++ e
    message := e ++ " has been inactive for over 10 minutes. They may need attention."
    salesman_id := s.user_id
    salesman_email := e
    priority := .medium
    data_leads := [] }

/-- Draft list of `generateAFKNotifications`: one AFK notification per
salesman whose computed status is afk (`salesmen.filter(s =>
s.online_status === 'afk')` mapped through the notification builder). -/
def afkNotifs (salesmen : List Salesman) : List Draft :=
  (salesmen.filter fun s => s.online_status == .afk).map mkAfkNotif

/-- The rows the AFK check inserts: the same `({ ...n, is_read: false })`
bulk insert as the other paths. -/
def afkInsertRows (ids : List String) (salesmen : List Salesman) (now : Int) :
    List Row :=
  insertRows ids (afkNotifs salesmen) now

/-- A `handleStatusUpdate` request from the salesman notification
screen: which field the inline select changed, and to what. -/
inductive UpdateReq
  | setStatus (v : LeadStatus)
  | setCallStatus (v : CallStatus)
  deriving DecidableEq, Repr

/-- The partial `updateData` object handleStatusUpdate sends:
`{ [field]: value }`, plus `last_contact: now` exactly when the field is
`call_status` and the value `answered` (SalesmanNotifications lines
173-178). -/
structure LeadUpdate where
  status : Option LeadStatus
  call_status : Option CallStatus
  last_contact : Option Int
  deriving DecidableEq, Repr

/-- Builds `updateData` from the request. -/
def buildUpdateData (now : Int) : UpdateReq → LeadUpdate
  | .setStatus v =>
    { status := some v, call_status := none, last_contact := none }
  | .setCallStatus v =>
    if v == .answered then
      { status := none, call_status := some v, last_contact := some now }
    else
      { status := none, call_status := some v, last_contact := none }

/-- The database `update(updateData).eq('id', leadId)` applied to one
lead row: fields present in the partial object are overwritten, all
other columns keep their value. -/
def applyUpdate (l : Lead) (u : LeadUpdate) : Lead :=
  { l with
    status := u.status.getD l.status
    call_status := u.call_status.getD l.call_status
    last_contact := u.last_contact.getD l.last_contact }

/-- Concrete lead used for evaluations: closed-won but never called and
more than two weeks old. -/
def exLeadClosedUncalled : Lead :=
  { id := "l1", user_id := "u1", name := "Ada", company := "Acme"
    status := .closedWon, call_status := .not_called
    last_contact := 0, created_at := 0 }

/-- Concrete lead whose elapsed time since last contact is exactly four
days when evaluated at `4 * msPerDay`. -/
def exLeadBoundary : Lead :=
  { id := "l2", user_id := "u1", name := "Bo", company := "Bcorp"
    status := .prospect, call_status := .answered
    last_contact := 0, created_at := 0 }

/-- Concrete lead five days since last contact but never called and
fifteen days old when evaluated at `20 * msPerDay`. -/
def exLeadOverlap : Lead :=
  { id := "l3", user_id := "u1", name := "Cy", company := "Ccorp"
    status := .prospect, call_status := .not_called
    last_contact := 15 * msPerDay, created_at := 5 * msPerDay }

/-- Concrete lead five days since last contact when evaluated at
`5 * msPerDay`: overdue but neither stale nor uncalled. -/
def exLeadOverdue : Lead :=
  { id := "l4", user_id := "u1", name := "Dee", company := "Dcorp"
    status := .prospect, call_status := .answered
    last_contact := 0, created_at := 0 }

/-- Concrete `user_roles` table. -/
def exRoles : List (String × String) := [("u1", "ada@crm.test")]

/-- Concrete salesman computed as afk. -/
def exSalesmanAfk : Salesman :=
  { user_id := "u1", email := "ada@crm.test", last_activity := some 0
    total_actions := 3, online_status := .afk }

/-! ## Helper lemmas -/

/-- Membership in the overdue bucket, unfolded. -/
theorem mem_overdueLeads {leads : List Lead} {uid : String} {now : Int} {l : Lead} :
    l ∈ overdueLeads leads uid now ↔
      l ∈ leads ∧ l.user_id = uid ∧ l.last_contact < fourDaysAgo now ∧
        l.status ≠ LeadStatus.closedWon ∧ l.status ≠ LeadStatus.closedLost := by
  simp [overdueLeads, List.mem_filter, and_assoc]

/-- Membership in the stale bucket, unfolded. -/
theorem mem_staleLeads {leads : List Lead} {uid : String} {now : Int} {l : Lead} :
    l ∈ staleLeads leads uid now ↔
      l ∈ leads ∧ l.user_id = uid ∧ l.last_contact < twoWeeksAgo now ∧
        l.status ≠ LeadStatus.closedWon ∧ l.status ≠ LeadStatus.closedLost := by
  simp [staleLeads, List.mem_filter, and_assoc]

/-- Membership in the uncalled bucket, unfolded. -/
theorem mem_uncalledLeads {leads : List Lead} {uid : String} {now : Int} {l : Lead} :
    l ∈ uncalledLeads leads uid now ↔
      l ∈ leads ∧ l.user_id = uid ∧ l.call_status = CallStatus.not_called ∧
        l.created_at < twoWeeksAgo now := by
  simp [uncalledLeads, List.mem_filter, and_assoc]

/-- The admin per-user step on an all-successful fetch, unfolded. -/
theorem processUserAdmin_honest (leads : List Lead) (roles : List (String × String))
    (now : Int) (uid : String) :
    processUserAdmin (honestFetch leads roles now uid) uid =
      (if (overdueLeads leads uid now).length > 0 then
        [mkOverdueNotifAdmin uid (fetchEmail (honestFetch leads roles now uid) uid)
          (overdueLeads leads uid now)] else []) ++
      (if (staleLeads leads uid now).length > 0 then
        [mkStaleNotifAdmin uid (fetchEmail (honestFetch leads roles now uid) uid)
          (staleLeads leads uid now)] else []) ++
      (if (uncalledLeads leads uid now).length > 0 then
        [mkUncalledNotifAdmin uid (fetchEmail (honestFetch leads roles now uid) uid)
          (uncalledLeads leads uid now)] else []) := rfl

/-- The auto per-user step on an all-successful fetch, unfolded. -/
theorem processUserAuto_honest (leads : List Lead) (roles : List (String × String))
    (now : Int) (uid : String) :
    processUserAuto (honestFetch leads roles now uid) uid =
      (if (overdueLeads leads uid now).length > 0 then
        [mkOverdueNotifAuto uid (fetchEmail (honestFetch leads roles now uid) uid)
          (overdueLeads leads uid now)] else []) ++
      (if (staleLeads leads uid now).length > 0 then
        [mkStaleNotifAuto uid (fetchEmail (honestFetch leads roles now uid) uid)
          (staleLeads leads uid now)] else []) := rfl

/-- Any draft of the admin per-user step on an all-successful fetch is
one of the three bucket notifications. -/
theorem processUserAdmin_honest_mem {leads : List Lead} {roles : List (String × String)}
    {now : Int} {uid : String} {d : Draft}
    (hd : d ∈ processUserAdmin (honestFetch leads roles now uid) uid) :
    d = mkOverdueNotifAdmin uid (fetchEmail (honestFetch leads roles now uid) uid)
          (overdueLeads leads uid now) ∨
    d = mkStaleNotifAdmin uid (fetchEmail (honestFetch leads roles now uid) uid)
          (staleLeads leads uid now) ∨
    d = mkUncalledNotifAdmin uid (fetchEmail (honestFetch leads roles now uid) uid)
          (uncalledLeads leads uid now) := by
  rw [processUserAdmin_honest] at hd
  rcases List.mem_append.mp hd with h | h
  · rcases List.mem_append.mp h with h1 | h1
    · left
      split at h1
      · exact List.mem_singleton.mp h1
      · simp at h1
    · right; left
      split at h1
      · exact List.mem_singleton.mp h1
      · simp at h1
  · right; right
    split at h
    · exact List.mem_singleton.mp h
    · simp at h

/-! ## Claim C1 -/

/-- C1 counterexample: a closed-won lead that was never called and is
more than two weeks old lands in the uncalled bucket of
generate-admin-notifications, and the generated pass contains the
uncalled notification carrying it — refuting the claim that closed
leads appear in no bucket and no notification. -/
theorem c1_closed_lead_in_uncalled_bucket :
    exLeadClosedUncalled.status = LeadStatus.closedWon ∧
    exLeadClosedUncalled ∈ uncalledLeads [exLeadClosedUncalled] "u1" (15 * msPerDay) ∧
    generateAdminDrafts (honestFetch [exLeadClosedUncalled] exRoles (15 * msPerDay))
        (uniqueUserIds [exLeadClosedUncalled]) =
      [mkUncalledNotifAdmin "u1" "ada@crm.test" [exLeadClosedUncalled]] := by
  decide

/-- C1 (amended): a closed-won or closed-lost lead is never in the
overdue or stale bucket, and appears in the payload of no
`stale_lead`-typed notification of a generate-admin-notifications
pass, regardless of its `last_contact` age; it can still land in the
uncalled bucket, which does not filter on status. -/
theorem c1_closed_excluded_from_overdue_and_stale
    (leads : List Lead) (roles : List (String × String)) (uid uid' : String)
    (now : Int) (l : Lead)
    (h : l.status = LeadStatus.closedWon ∨ l.status = LeadStatus.closedLost) :
    l ∉ overdueLeads leads uid now ∧ l ∉ staleLeads leads uid now ∧
    ∀ d ∈ processUserAdmin (honestFetch leads roles now uid') uid',
      d.ntype = "stale_lead" → l ∉ d.data_leads := by
  refine ⟨?_, ?_, ?_⟩
  · intro hc
    obtain ⟨-, -, -, hcw, hcl⟩ := mem_overdueLeads.mp hc
    rcases h with h | h
    · exact hcw h
    · exact hcl h
  · intro hc
    obtain ⟨-, -, -, hcw, hcl⟩ := mem_staleLeads.mp hc
    rcases h with h | h
    · exact hcw h
    · exact hcl h
  · intro d hd _hn hmem
    rcases processUserAdmin_honest_mem hd with h1 | h1 | h1 <;> subst h1
    · simp only [mkOverdueNotifAdmin] at hmem
      obtain ⟨-, -, -, hcw, hcl⟩ :=
        mem_overdueLeads.mp (List.take_subset _ _ hmem)
      rcases h with h | h
      · exact hcw h
      · exact hcl h
    · simp only [mkStaleNotifAdmin] at hmem
      obtain ⟨-, -, -, hcw, hcl⟩ :=
        mem_staleLeads.mp (List.take_subset _ _ hmem)
      rcases h with h | h
      · exact hcw h
      · exact hcl h
    · simp [mkUncalledNotifAdmin] at _hn

/-- C1 witness: the amended exclusion evaluated on the concrete
closed-won lead. -/
theorem c1_closed_excluded_witness :
    exLeadClosedUncalled ∉ overdueLeads [exLeadClosedUncalled] "u1" (15 * msPerDay) ∧
    exLeadClosedUncalled ∉ staleLeads [exLeadClosedUncalled] "u1" (15 * msPerDay) ∧
    ∀ d ∈ processUserAdmin (honestFetch [exLeadClosedUncalled] exRoles (15 * msPerDay) "u1") "u1",
      d.ntype = "stale_lead" → exLeadClosedUncalled ∉ d.data_leads :=
  c1_closed_excluded_from_overdue_and_stale [exLeadClosedUncalled] exRoles "u1" "u1"
    (15 * msPerDay) exLeadClosedUncalled (Or.inl rfl)

/-! ## Claim C2 -/

/-- C2 counterexample: (a) a lead whose elapsed time since
`last_contact` is exactly four days satisfies the claim's guard
(status open, elapsed ≥ 4 days and < 14 days) yet the strict `lt` query
leaves it out of the overdue bucket; (b) a lead five days since last
contact but never called and fifteen days old is in the overdue bucket
and also in the uncalled bucket, not "in no other bucket". -/
theorem c2_boundary_and_uncalled_overlap :
    (exLeadBoundary.status ≠ LeadStatus.closedWon ∧
     exLeadBoundary.status ≠ LeadStatus.closedLost ∧
     4 * msPerDay ≤ 4 * msPerDay - exLeadBoundary.last_contact ∧
     4 * msPerDay - exLeadBoundary.last_contact < 14 * msPerDay ∧
     exLeadBoundary ∉ overdueLeads [exLeadBoundary] "u1" (4 * msPerDay)) ∧
    (exLeadOverlap ∈ overdueLeads [exLeadOverlap] "u1" (20 * msPerDay) ∧
     exLeadOverlap ∈ uncalledLeads [exLeadOverlap] "u1" (20 * msPerDay)) := by
  decide

/-- C2 (amended): a lead of an open status whose elapsed time since
`last_contact` is strictly more than 4 days and less than 14 days is in
the overdue bucket and not in the stale bucket, and the overdue
notification for its salesman is generated by the admin pass; it can
additionally sit in the uncalled bucket when its `call_status` is
`not_called` and `created_at` is more than 14 days past. -/
theorem c2_overdue_window_bucket (leads : List Lead) (roles : List (String × String))
    (uid : String) (now : Int) (l : Lead)
    (hmem : l ∈ leads) (huid : l.user_id = uid)
    (hcw : l.status ≠ LeadStatus.closedWon) (hcl : l.status ≠ LeadStatus.closedLost)
    (hlo : 4 * msPerDay < now - l.last_contact)
    (hhi : now - l.last_contact < 14 * msPerDay) :
    l ∈ overdueLeads leads uid now ∧ l ∉ staleLeads leads uid now ∧
    mkOverdueNotifAdmin uid (fetchEmail (honestFetch leads roles now uid) uid)
        (overdueLeads leads uid now) ∈
      processUserAdmin (honestFetch leads roles now uid) uid := by
  have hov : l ∈ overdueLeads leads uid now := by
    refine mem_overdueLeads.mpr ⟨hmem, huid, ?_, hcw, hcl⟩
    simp only [fourDaysAgo]
    omega
  refine ⟨hov, ?_, ?_⟩
  · intro hc
    obtain ⟨-, -, hlt, -, -⟩ := mem_staleLeads.mp hc
    simp only [twoWeeksAgo] at hlt
    omega
  · rw [processUserAdmin_honest]
    refine List.mem_append_left _ (List.mem_append_left _ ?_)
    rw [if_pos (List.length_pos_of_mem hov)]
    exact List.mem_singleton_self _

/-- C2 witness: the amended window property evaluated on the concrete
five-days-overdue lead. -/
theorem c2_overdue_window_bucket_witness :
    exLeadOverdue ∈ overdueLeads [exLeadOverdue] "u1" (5 * msPerDay) ∧
    exLeadOverdue ∉ staleLeads [exLeadOverdue] "u1" (5 * msPerDay) ∧
    mkOverdueNotifAdmin "u1"
        (fetchEmail (honestFetch [exLeadOverdue] exRoles (5 * msPerDay) "u1") "u1")
        (overdueLeads [exLeadOverdue] "u1" (5 * msPerDay)) ∈
      processUserAdmin (honestFetch [exLeadOverdue] exRoles (5 * msPerDay) "u1") "u1" :=
  c2_overdue_window_bucket [exLeadOverdue] exRoles "u1" (5 * msPerDay) exLeadOverdue
    (by decide) rfl (by decide) (by decide) (by decide) (by decide)

/-! ## Claim C3 -/

/-- C3 counterexample: at the auto-generate-notifications call site
(and the AdminNotifications screen, which duplicates it), 12 overdue
leads produce priority high — not medium — and 5 produce medium — not
low; the claimed threshold ladder only exists at
generate-admin-notifications. -/
theorem c3_auto_priority_differs :
    (mkOverdueNotifAuto "u1" "ada@crm.test"
        (List.replicate 12 exLeadOverdue)).priority = Priority.high ∧
    (mkOverdueNotifAuto "u1" "ada@crm.test"
        (List.replicate 5 exLeadOverdue)).priority = Priority.medium := by
  decide

/-- C3 (amended): at generate-admin-notifications the overdue priority
is high iff the count exceeds 20, medium iff it is in (10, 20], low iff
at most 10; the stale priority is always high; the uncalled priority is
high above 5, medium in (2, 5], low otherwise.  At
auto-generate-notifications (and the AdminNotifications screen) the
overdue priority is instead high iff the count exceeds 10 and medium
otherwise — never low — while the stale priority is high. -/
theorem c3_priority_thresholds (uid email : String) (od st uc : List Lead) :
    ((mkOverdueNotifAdmin uid email od).priority = Priority.high ↔ 20 < od.length) ∧
    ((mkOverdueNotifAdmin uid email od).priority = Priority.medium ↔
      10 < od.length ∧ od.length ≤ 20) ∧
    ((mkOverdueNotifAdmin uid email od).priority = Priority.low ↔ od.length ≤ 10) ∧
    (mkStaleNotifAdmin uid email st).priority = Priority.high ∧
    ((mkUncalledNotifAdmin uid email uc).priority = Priority.high ↔ 5 < uc.length) ∧
    ((mkUncalledNotifAdmin uid email uc).priority = Priority.medium ↔
      2 < uc.length ∧ uc.length ≤ 5) ∧
    ((mkUncalledNotifAdmin uid email uc).priority = Priority.low ↔ uc.length ≤ 2) ∧
    ((mkOverdueNotifAuto uid email od).priority = Priority.high ↔ 10 < od.length) ∧
    ((mkOverdueNotifAuto uid email od).priority = Priority.medium ↔ od.length ≤ 10) ∧
    (mkOverdueNotifAuto uid email od).priority ≠ Priority.low ∧
    (mkStaleNotifAuto uid email st).priority = Priority.high := by
  simp only [mkOverdueNotifAdmin, mkStaleNotifAdmin, mkUncalledNotifAdmin,
    mkOverdueNotifAuto, mkStaleNotifAuto]
  refine ⟨?_, ?_, ?_, trivial, ?_, ?_, ?_, ?_, ?_, ?_, trivial⟩ <;>
    split_ifs <;> simp <;> omega

/-! ## Claim C4 -/

/-- Rows of a bulk insert carry the insertion time. -/
theorem insertRows_created_at {ids : List String} {drafts : List Draft} {now : Int}
    {r : Row} (hr : r ∈ insertRows ids drafts now) : r.created_at = now := by
  simp only [insertRows, List.mem_map] at hr
  obtain ⟨p, -, rfl⟩ := hr
  rfl

/-- Rows of a bulk insert carry one of the supplied ids. -/
theorem insertRows_id_mem {ids : List String} {drafts : List Draft} {now : Int}
    {r : Row} (hr : r ∈ insertRows ids drafts now) : r.id ∈ ids := by
  simp only [insertRows, List.mem_map] at hr
  obtain ⟨⟨i, d⟩, hp, rfl⟩ := hr
  exact (List.of_mem_zip hp).1

/-- The admin delete step distributes over append. -/
theorem adminDeleteStep_append (a b : List Row) (now : Int) :
    adminDeleteStep (a ++ b) now = adminDeleteStep a now ++ adminDeleteStep b now := by
  simp [adminDeleteStep]

/-- The admin delete step is idempotent. -/
theorem adminDeleteStep_idem (store : List Row) (now : Int) :
    adminDeleteStep (adminDeleteStep store now) now = adminDeleteStep store now := by
  simp [adminDeleteStep, List.filter_filter]

/-- The admin delete step wipes out rows just inserted at `now`: they
were created within the last 24 hours. -/
theorem adminDeleteStep_insertRows (ids : List String) (drafts : List Draft)
    (now : Int) : adminDeleteStep (insertRows ids drafts now) now = [] := by
  rw [adminDeleteStep, List.filter_eq_nil_iff]
  intro r hr
  rw [insertRows_created_at hr]
  simp only [msPerHour, decide_eq_true_eq, not_lt]
  omega

/-- The screen delete step distributes over append. -/
theorem screenDeleteStep_append (a b : List Row) :
    screenDeleteStep (a ++ b) = screenDeleteStep a ++ screenDeleteStep b := by
  simp [screenDeleteStep]

/-- The screen delete step is idempotent. -/
theorem screenDeleteStep_idem (store : List Row) :
    screenDeleteStep (screenDeleteStep store) = screenDeleteStep store := by
  simp [screenDeleteStep, List.filter_filter]

/-- The screen delete step wipes out rows whose ids avoid the sentinel. -/
theorem screenDeleteStep_insertRows (ids : List String) (drafts : List Draft)
    (now : Int) (hids : ∀ i ∈ ids, i ≠ dummyId) :
    screenDeleteStep (insertRows ids drafts now) = [] := by
  rw [screenDeleteStep, List.filter_eq_nil_iff]
  intro r hr
  simp only [beq_iff_eq]
  exact hids _ (insertRows_id_mem hr)

/-- C4 counterexample: auto-generate-notifications' delete step removes
only rows older than 24 hours, so it keeps the rows an immediately
preceding pass inserted; over one overdue lead a single pass stores one
notification row, a second identical pass stores two. -/
theorem c4_auto_pass_duplicates :
    (autoPass [exLeadOverdue] exRoles ["i1"] (5 * msPerDay) []).length = 1 ∧
    (autoPass [exLeadOverdue] exRoles ["i1"] (5 * msPerDay)
        (autoPass [exLeadOverdue] exRoles ["i1"] (5 * msPerDay) [])).length = 2 := by
  decide

/-- C4 (amended): at generate-admin-notifications (which deletes every
row created in the last 24 hours) and at the AdminNotifications screen
(which deletes all rows, given that the database ids avoid the delete
sentinel), running the pass twice in succession over unchanged lead
data leaves the same rows as running it once; at
auto-generate-notifications this fails and duplicates accumulate. -/
theorem c4_admin_and_screen_idempotent (leads : List Lead)
    (roles : List (String × String)) (ids : List String) (now : Int)
    (store : List Row) (hids : ∀ i ∈ ids, i ≠ dummyId) :
    adminPass leads roles ids now (adminPass leads roles ids now store) =
      adminPass leads roles ids now store ∧
    screenPass leads roles ids now (screenPass leads roles ids now store) =
      screenPass leads roles ids now store := by
  constructor
  · unfold adminPass
    rw [adminDeleteStep_append, adminDeleteStep_idem, adminDeleteStep_insertRows,
      List.append_nil]
  · unfold screenPass
    rw [screenDeleteStep_append, screenDeleteStep_idem,
      screenDeleteStep_insertRows _ _ _ hids, List.append_nil]

/-- C4 witness: idempotence of the admin and screen passes evaluated on
the concrete one-lead table and a fresh id. -/
theorem c4_admin_and_screen_idempotent_witness :
    adminPass [exLeadOverdue] exRoles ["i1"] (5 * msPerDay)
        (adminPass [exLeadOverdue] exRoles ["i1"] (5 * msPerDay) []) =
      adminPass [exLeadOverdue] exRoles ["i1"] (5 * msPerDay) [] ∧
    screenPass [exLeadOverdue] exRoles ["i1"] (5 * msPerDay)
        (screenPass [exLeadOverdue] exRoles ["i1"] (5 * msPerDay) []) =
      screenPass [exLeadOverdue] exRoles ["i1"] (5 * msPerDay) [] :=
  c4_admin_and_screen_idempotent [exLeadOverdue] exRoles ["i1"] (5 * msPerDay) []
    (by decide)

/-! ## Claim C5 -/

/-- C5 counterexample: with one overdue lead drafted and a failing bulk
insert, auto-generate-notifications still answers HTTP 200 with
`success: true` — the insert error is only logged (lines 113-117), not
thrown, so not every call site surfaces the failure as a 500. -/
theorem c5_auto_insert_error_returns_200 :
    (generateAutoDrafts (honestFetch [exLeadOverdue] exRoles (5 * msPerDay))
        ["u1"]).length = 1 ∧
    serveAuto (.ok ["u1"]) (honestFetch [exLeadOverdue] exRoles (5 * msPerDay))
        (some "insert failed") =
      { status := 200, body := .ok 1 none } := by
  decide

/-- C5 (amended): only generate-admin-notifications surfaces a bulk
insert failure — when at least one notification was drafted, it throws
the insert error and answers HTTP 500 with the error message;
auto-generate-notifications logs the failure and still answers HTTP 200
with `success: true` and the drafted count. -/
theorem c5_insert_failure_surfacing (uids : List String)
    (fetch : String → UserFetch) (e : String)
    (h : (generateAdminDrafts fetch uids).length > 0) :
    serveAdmin (.ok uids) fetch (some e) = { status := 500, body := .err e } ∧
    serveAuto (.ok uids) fetch (some e) =
      { status := 200, body := .ok (generateAutoDrafts fetch uids).length none } := by
  constructor
  · simp [serveAdmin, h]
  · rfl

/-- C5 witness: the surfacing dichotomy evaluated on the concrete
one-lead table with a failing insert. -/
theorem c5_insert_failure_surfacing_witness :
    serveAdmin (.ok ["u1"]) (honestFetch [exLeadOverdue] exRoles (5 * msPerDay))
        (some "boom") = { status := 500, body := .err "boom" } ∧
    serveAuto (.ok ["u1"]) (honestFetch [exLeadOverdue] exRoles (5 * msPerDay))
        (some "boom") =
      { status := 200
        body := .ok (generateAutoDrafts
          (honestFetch [exLeadOverdue] exRoles (5 * msPerDay)) ["u1"]).length none } :=
  c5_insert_failure_surfacing ["u1"] (honestFetch [exLeadOverdue] exRoles (5 * msPerDay))
    "boom" (by decide)

/-! ## Claim C6 -/

/-- C6 counterexample: a salesman holding a session whose last activity
is 35 minutes old is classified idle, not offline — the final branch of
the MonitoringRoom ladder returns idle for a logged-in salesman past 30
minutes. -/
theorem c6_thirty_five_minutes_is_idle :
    computeStatus true (some 0) (35 * 60 * 1000) = OnlineStatus.idle ∧
    computeStatus true (some 0) (35 * 60 * 1000) ≠ OnlineStatus.offline := by
  decide

/-- C6 (amended): for a salesman holding a session record with a last
activity, the classifier returns online under 5 minutes, idle between 5
and 10, afk between 10 and 30, and idle again — not offline — at 30
minutes or more; a logged-in salesman with no activity is online, and a
salesman with no session record is offline whether or not historical
activity exists. -/
theorem c6_status_ladder (now t : Int) :
    computeStatus false none now = OnlineStatus.offline ∧
    computeStatus false (some t) now = OnlineStatus.offline ∧
    computeStatus true none now = OnlineStatus.online ∧
    (now - t < 5 * 60 * 1000 → computeStatus true (some t) now = OnlineStatus.online) ∧
    (5 * 60 * 1000 ≤ now - t → now - t < 10 * 60 * 1000 →
      computeStatus true (some t) now = OnlineStatus.idle) ∧
    (10 * 60 * 1000 ≤ now - t → now - t < 30 * 60 * 1000 →
      computeStatus true (some t) now = OnlineStatus.afk) ∧
    (30 * 60 * 1000 ≤ now - t → computeStatus true (some t) now = OnlineStatus.idle) := by
  refine ⟨rfl, rfl, rfl, ?_, ?_, ?_, ?_⟩ <;>
    · intros
      simp only [computeStatus, AFK_THRESHOLD, IDLE_THRESHOLD]
      split_ifs <;> first | rfl | omega

/-- C6 witness: the ladder evaluated at 6, 11 and 35 minutes of
inactivity for a logged-in salesman. -/
theorem c6_status_ladder_witness :
    computeStatus true (some 0) (6 * 60 * 1000) = OnlineStatus.idle ∧
    computeStatus true (some 0) (11 * 60 * 1000) = OnlineStatus.afk ∧
    computeStatus true (some 0) (35 * 60 * 1000) = OnlineStatus.idle :=
  ⟨(c6_status_ladder (6 * 60 * 1000) 0).2.2.2.2.1 (by decide) (by decide),
   (c6_status_ladder (11 * 60 * 1000) 0).2.2.2.2.2.1 (by decide) (by decide),
   (c6_status_ladder (35 * 60 * 1000) 0).2.2.2.2.2.2 (by decide)⟩

/-! ## Claim C7 -/

/-- Every draft of the admin per-user step targets that user. -/
theorem processUserAdmin_salesman_id {f : UserFetch} {uid : String} {d : Draft}
    (hd : d ∈ processUserAdmin f uid) : d.salesman_id = uid := by
  obtain ⟨em, ov, st, uc⟩ := f
  cases ov with
  | error e => simp [processUserAdmin] at hd
  | ok od =>
    cases st with
    | error e => simp [processUserAdmin] at hd
    | ok stl =>
      cases uc with
      | error e => simp [processUserAdmin] at hd
      | ok ucl =>
        simp only [processUserAdmin] at hd
        rcases List.mem_append.mp hd with h | h
        · rcases List.mem_append.mp h with h1 | h1
          · split at h1
            · rw [List.mem_singleton.mp h1]; rfl
            · simp at h1
          · split at h1
            · rw [List.mem_singleton.mp h1]; rfl
            · simp at h1
        · split at h
          · rw [List.mem_singleton.mp h]; rfl
          · simp at h

/-- Every draft of the auto per-user step targets that user. -/
theorem processUserAuto_salesman_id {f : UserFetch} {uid : String} {d : Draft}
    (hd : d ∈ processUserAuto f uid) : d.salesman_id = uid := by
  obtain ⟨em, ov, st, uc⟩ := f
  cases ov with
  | error e =>
    cases st with
    | error e2 => simp [processUserAuto] at hd
    | ok stl =>
      simp only [processUserAuto, List.nil_append] at hd
      split at hd
      · rw [List.mem_singleton.mp hd]; rfl
      · simp at hd
  | ok od =>
    cases st with
    | error e2 =>
      simp only [processUserAuto, List.append_nil] at hd
      split at hd
      · rw [List.mem_singleton.mp hd]; rfl
      · simp at hd
    | ok stl =>
      simp only [processUserAuto] at hd
      rcases List.mem_append.mp hd with h | h
      · split at h
        · rw [List.mem_singleton.mp h]; rfl
        · simp at h
      · split at h
        · rw [List.mem_singleton.mp h]; rfl
        · simp at h

/-- Filtering away a user's own drafts empties the admin per-user step. -/
theorem filter_ne_processUserAdmin (f : UserFetch) (u0 : String) :
    (processUserAdmin f u0).filter (fun d => !(d.salesman_id == u0)) = [] := by
  rw [List.filter_eq_nil_iff]
  intro d hd
  simp [processUserAdmin_salesman_id hd]

/-- Filtering away a user's own drafts empties the auto per-user step. -/
theorem filter_ne_processUserAuto (f : UserFetch) (u0 : String) :
    (processUserAuto f u0).filter (fun d => !(d.salesman_id == u0)) = [] := by
  rw [List.filter_eq_nil_iff]
  intro d hd
  simp [processUserAuto_salesman_id hd]

/-- Unfolding of the admin pass over a user list head. -/
theorem generateAdminDrafts_cons (fetch : String → UserFetch) (u : String)
    (rest : List String) :
    generateAdminDrafts fetch (u :: rest) =
      processUserAdmin (fetch u) u ++ generateAdminDrafts fetch rest := by
  simp [generateAdminDrafts]

/-- Unfolding of the auto pass over a user list head. -/
theorem generateAutoDrafts_cons (fetch : String → UserFetch) (u : String)
    (rest : List String) :
    generateAutoDrafts fetch (u :: rest) =
      processUserAuto (fetch u) u ++ generateAutoDrafts fetch rest := by
  simp [generateAutoDrafts]

/-- C7: replacing one salesman's fetch result with anything — a failed
query included — changes no other salesman's drafts in either HTTP
function, and (with the bulk insert succeeding) both functions still
answer HTTP 200: a per-salesman failure is logged and skipped, never
aborting the pass. -/
theorem c7_per_salesman_isolation (uids : List String) (fetch : String → UserFetch)
    (u0 : String) (fBad : UserFetch) :
    ((generateAdminDrafts (fun u => if u == u0 then fBad else fetch u) uids).filter
        (fun d => !(d.salesman_id == u0)) =
      (generateAdminDrafts fetch uids).filter (fun d => !(d.salesman_id == u0))) ∧
    ((generateAutoDrafts (fun u => if u == u0 then fBad else fetch u) uids).filter
        (fun d => !(d.salesman_id == u0)) =
      (generateAutoDrafts fetch uids).filter (fun d => !(d.salesman_id == u0))) ∧
    (serveAdmin (.ok uids) (fun u => if u == u0 then fBad else fetch u) none).status = 200 ∧
    (serveAuto (.ok uids) (fun u => if u == u0 then fBad else fetch u) none).status = 200 := by
  refine ⟨?_, ?_, ?_, ?_⟩
  · induction uids with
    | nil => rfl
    | cons u rest ih =>
      simp only [generateAdminDrafts_cons, List.filter_append, ih]
      congr 1
      by_cases h : u = u0
      · subst h
        simp only [beq_self_eq_true, if_true]
        rw [filter_ne_processUserAdmin, filter_ne_processUserAdmin]
      · rw [if_neg (by simp [h])]
  · induction uids with
    | nil => rfl
    | cons u rest ih =>
      simp only [generateAutoDrafts_cons, List.filter_append, ih]
      congr 1
      by_cases h : u = u0
      · subst h
        simp only [beq_self_eq_true, if_true]
        rw [filter_ne_processUserAuto, filter_ne_processUserAuto]
      · rw [if_neg (by simp [h])]
  · simp only [serveAdmin]
    split <;> rfl
  · rfl

/-! ## Claim C8 -/

/-- C8: the AFK check drafts exactly one `inactive_salesman`
notification per salesman whose computed status is afk — titled with
"AFK Alert" and the salesman's email at priority medium — and drafts
nothing for any other salesman. -/
theorem c8_afk_notifications (salesmen : List Salesman) :
    (∀ s ∈ salesmen, s.online_status = OnlineStatus.afk →
      mkAfkNotif s ∈ afkNotifs salesmen) ∧
    (∀ n ∈ afkNotifs salesmen, ∃ s ∈ salesmen,
      s.online_status = OnlineStatus.afk ∧ n = mkAfkNotif s) ∧
    (∀ s : Salesman, (mkAfkNotif s).ntype = "inactive_salesman" ∧
      (mkAfkNotif s).title = "🚨 AFK Alert: " ++ s.email ∧
      (mkAfkNotif s).salesman_email = s.email ∧
      (mkAfkNotif s).priority = Priority.medium) := by
  refine ⟨?_, ?_, fun s => ⟨rfl, rfl, rfl, rfl⟩⟩
  · intro s hs hafk
    exact List.mem_map_of_mem _ (List.mem_filter.mpr ⟨hs, by simp [hafk]⟩)
  · intro n hn
    obtain ⟨s, hs, rfl⟩ := List.mem_map.mp hn
    have hf := List.mem_filter.mp hs
    exact ⟨s, hf.1, by simpa using hf.2, rfl⟩

/-- C8 witness: the AFK draft membership evaluated on the concrete afk
salesman. -/
theorem c8_afk_notifications_witness :
    mkAfkNotif exSalesmanAfk ∈ afkNotifs [exSalesmanAfk] :=
  (c8_afk_notifications [exSalesmanAfk]).1 exSalesmanAfk (List.mem_singleton_self _) rfl

/-! ## Claim C9 -/

/-- Rows of a bulk insert are created unread. -/
theorem insertRows_unread {ids : List String} {drafts : List Draft} {now : Int}
    {r : Row} (hr : r ∈ insertRows ids drafts now) : r.is_read = false := by
  simp only [insertRows, List.mem_map] at hr
  obtain ⟨p, -, rfl⟩ := hr
  rfl

/-- Marking all as read sets exactly the read flag of every row. -/
theorem markAllAsRead_map (store : List Row) :
    markAllAsRead store = store.map (fun r => { r with is_read := true }) := by
  unfold markAllAsRead
  apply List.map_congr_left
  intro r _
  obtain ⟨i, dr, ca, ir⟩ := r
  cases ir <;> simp

/-- Marking one notification as read leaves every other row unchanged. -/
theorem markAsRead_filter_other (store : List Row) (nid : String) :
    (markAsRead store nid).filter (fun r => !(r.id == nid)) =
      store.filter (fun r => !(r.id == nid)) := by
  unfold markAsRead
  induction store with
  | nil => rfl
  | cons r rs ih =>
    by_cases h : r.id = nid
    · simp only [List.map_cons, List.filter_cons, h]
      simpa [h] using ih
    · simp only [List.map_cons, List.filter_cons, h]
      simpa [h] using ih

/-- Marking one notification as read never touches the id, content or
creation time of any row. -/
theorem markAsRead_frame (store : List Row) (nid : String) :
    (markAsRead store nid).map (fun r => (r.id, r.draft, r.created_at)) =
      store.map (fun r => (r.id, r.draft, r.created_at)) := by
  unfold markAsRead
  rw [List.map_map]
  apply List.map_congr_left
  intro r _
  by_cases h : r.id = nid <;> simp [h]

/-- C9: every row inserted by any generation path — the bulk insert
itself, a generate-admin-notifications pass, an
auto-generate-notifications pass, an AdminNotifications-screen pass,
and the AFK check — is created with `is_read = false`; `markAllAsRead`
sets exactly the read flag, and `markAsRead` changes at most the read
flag of the row with the given id, leaving all other rows and all other
columns unchanged. -/
theorem c9_inserted_rows_unread (leads : List Lead) (roles : List (String × String))
    (ids : List String) (drafts : List Draft) (now : Int) (store : List Row)
    (salesmen : List Salesman) (nid : String) :
    (insertRows ids drafts now).all (fun r => r.is_read == false) = true ∧
    (adminPass leads roles ids now []).all (fun r => r.is_read == false) = true ∧
    (autoPass leads roles ids now []).all (fun r => r.is_read == false) = true ∧
    (screenPass leads roles ids now []).all (fun r => r.is_read == false) = true ∧
    (afkInsertRows ids salesmen now).all (fun r => r.is_read == false) = true ∧
    markAllAsRead store = store.map (fun r => { r with is_read := true }) ∧
    (markAsRead store nid).filter (fun r => !(r.id == nid)) =
      store.filter (fun r => !(r.id == nid)) ∧
    (markAsRead store nid).map (fun r => (r.id, r.draft, r.created_at)) =
      store.map (fun r => (r.id, r.draft, r.created_at)) := by
  refine ⟨?_, ?_, ?_, ?_, ?_, markAllAsRead_map store,
    markAsRead_filter_other store nid, markAsRead_frame store nid⟩
  · rw [List.all_eq_true]
    intro r hr
    simpa using insertRows_unread hr
  · rw [List.all_eq_true]
    intro r hr
    simp only [adminPass, adminDeleteStep, List.filter_nil, List.nil_append] at hr
    simpa using insertRows_unread hr
  · rw [List.all_eq_true]
    intro r hr
    simp only [autoPass, autoDeleteStep, List.filter_nil, List.nil_append] at hr
    simpa using insertRows_unread hr
  · rw [List.all_eq_true]
    intro r hr
    simp only [screenPass, screenDeleteStep, List.filter_nil, List.nil_append] at hr
    simpa using insertRows_unread hr
  · rw [List.all_eq_true]
    intro r hr
    simp only [afkInsertRows] at hr
    simpa using insertRows_unread hr

/-! ## Claim C10 -/

/-- C10: the inline update from the salesman notification screen
setting `call_status` to answered also sets `last_contact` to now;
setting `status`, or `call_status` to any other value, writes only the
named field and leaves every other lead column unchanged. -/
theorem c10_update_frame (l : Lead) (now : Int) (v : LeadStatus) (w : CallStatus) :
    applyUpdate l (buildUpdateData now (.setCallStatus .answered)) =
      { l with call_status := .answered, last_contact := now } ∧
    applyUpdate l (buildUpdateData now (.setStatus v)) = { l with status := v } ∧
    (w ≠ CallStatus.answered →
      applyUpdate l (buildUpdateData now (.setCallStatus w)) =
        { l with call_status := w }) := by
  refine ⟨rfl, rfl, fun hw => ?_⟩
  have hb : (w == CallStatus.answered) = false := by simpa using hw
  simp [buildUpdateData, hb, applyUpdate]

/-- C10 witness: the frame property evaluated for a `busy` call-status
update on the concrete lead. -/
theorem c10_update_frame_witness :
    applyUpdate exLeadOverdue (buildUpdateData 0 (.setCallStatus .busy)) =
      { exLeadOverdue with call_status := CallStatus.busy } :=
  (c10_update_frame exLeadOverdue 0 LeadStatus.qualified CallStatus.busy).2.2
    (by decide)

end Crm
